import Mathlib

/-!
Shallow embedding of the Minecraft IP-forwarding relay (Gateway server and
Agent client). Each definition mirrors one function or handler of the
JavaScript source; theorems at the end settle the frozen claims about the
port registry, the listener lifecycle, TCP pairing, the data-plane header,
the UDP envelope codec and the UDP dispatch loop.
-/

namespace Relay

/-! ## Byte-level helpers (Buffer reads and writes, big-endian) -/

/-- Value of two big-endian bytes, as `readUInt16BE` computes it. -/
def be16 (hi lo : Nat) : Nat := hi * 256 + lo

/-- Value of the first four bytes of a chunk, as `readUInt32BE(0)` computes it. -/
def readUInt32BE (chunk : List Nat) : Nat :=
  chunk.getD 0 0 * 16777216 + chunk.getD 1 0 * 65536 + chunk.getD 2 0 * 256 + chunk.getD 3 0

/-! ## UDP encapsulation envelope

The Gateway's `handleUdpMessage` builds an 8-byte `clientInfo` header
(four IPv4 octets, then the client port and the payload length, both
big-endian 16-bit) and concatenates the datagram payload after it.  The
Agent's `proxySocket` data handler reads those fields back and, when the
header is not the all-zero "response" shape and announces a positive
payload length that the buffer covers, slices the payload out. -/

/-- Gateway-side envelope construction (the `clientInfo` buffer followed by
the payload). -/
def wrapUdpDatagram (ip0 ip1 ip2 ip3 clientPort : Nat) (msg : List Nat) : List Nat :=
  [ip0, ip1, ip2, ip3,
   clientPort / 256, clientPort % 256,
   msg.length / 256, msg.length % 256] ++ msg

/-- Agent-side envelope construction for a local UDP response
(`handleResponse`): four zero octets, a zero port, then the length and the
payload. -/
def wrapUdpResponse (responseMsg : List Nat) : List Nat :=
  [0, 0, 0, 0, 0, 0, responseMsg.length / 256, responseMsg.length % 256] ++ responseMsg

/-- Check the Agent applies to a decoded header: the client IP rendered as
`0.0.0.0` and a zero client port mark a response envelope. -/
def isUdpResponseHeader (data : List Nat) : Bool :=
  data.getD 0 0 == 0 && data.getD 1 0 == 0 && data.getD 2 0 == 0 && data.getD 3 0 == 0 &&
    be16 (data.getD 4 0) (data.getD 5 0) == 0

/-- Fields of a decoded external UDP datagram on the Agent side. -/
structure DecodedDatagram where
  ip0 : Nat
  ip1 : Nat
  ip2 : Nat
  ip3 : Nat
  clientPort : Nat
  payload : List Nat
deriving DecidableEq, Repr

/-- Agent-side envelope parse, mirroring the `proxySocket.on('data')`
handler: require at least 8 bytes, read the client address, port and payload
length, and accept the buffer as an external datagram only when the header
is not the response shape, the announced length is covered by the buffer,
and that length is positive.  Every other buffer yields `none`. -/
def decodeUdpDatagram (data : List Nat) : Option DecodedDatagram :=
  match data with
  | ip0 :: ip1 :: ip2 :: ip3 :: p1 :: p2 :: l1 :: l2 :: rest =>
      let clientPort := be16 p1 p2
      let udpDataLength := be16 l1 l2
      let isUdpResponse := ip0 == 0 && ip1 == 0 && ip2 == 0 && ip3 == 0 && clientPort == 0
      if !isUdpResponse && udpDataLength ≤ rest.length && 0 < udpDataLength then
        some ⟨ip0, ip1, ip2, ip3, clientPort, rest.take udpDataLength⟩
      else
        none
  | _ => none

/-! ## Port registry (Gateway configuration and availability) -/

/-- One entry of `config.portRanges`. -/
structure PortRange where
  startPort : Nat
  endPort : Nat
  enabled : Bool
deriving DecidableEq, Repr

/-- One entry of `config.specificPorts`. -/
structure SpecificPort where
  port : Nat
  enabled : Bool
deriving DecidableEq, Repr

/-- The Gateway configuration fields the port registry reads. -/
structure ServerConfig where
  webPort : Nat
  localProxyPort : Nat
  portRanges : List PortRange
  specificPorts : List SpecificPort
deriving DecidableEq, Repr

/-- One element of the array `getAvailablePorts` returns (the fields the
allocator reads; entries are always constructed with `enabled := true`). -/
structure AvailablePortEntry where
  port : Nat
  enabled : Bool
deriving DecidableEq, Repr

/-- Expansion of one enabled range: the loop
`for (port = startPort; port <= endPort; port++)`. -/
def rangePortsList (r : PortRange) : List AvailablePortEntry :=
  (List.range (r.endPort + 1 - r.startPort)).map (fun i => ⟨r.startPort + i, true⟩)

/-- Mirrors `getAvailablePorts(config)`: enabled ranges expanded in
configuration order, each ascending, followed by enabled specific ports in
configuration order. -/
def getAvailablePorts (config : ServerConfig) : List AvailablePortEntry :=
  (config.portRanges.filter (·.enabled)).flatMap rangePortsList
    ++ (config.specificPorts.filter (·.enabled)).map (fun sp => ⟨sp.port, true⟩)

/-- Runtime state the Gateway keeps per process: the TCP and UDP listener
tables, the protocol table, the local-to-public mapping table, and the ports
whose waiting queue and idle pool have been initialized. -/
structure GatewayState where
  activeServers : List Nat
  activeUdpServers : List Nat
  portProtocols : List (Nat × Nat)
  portMappings : List (Nat × Nat)
  waitingQueuePorts : List Nat
  idlePoolPorts : List Nat
deriving DecidableEq, Repr

/-- Mirrors `isPortOccupied(port)`: a port is occupied when a TCP or UDP
listener already owns it or it is one of the process's own two ports. -/
def isPortOccupied (st : GatewayState) (config : ServerConfig) (port : Nat) : Bool :=
  st.activeServers.contains port || st.activeUdpServers.contains port ||
    port == config.webPort || port == config.localProxyPort

/-- Condition under which `POST /api/ports/allocate` accepts the preferred
port: it is truthy, not occupied, and some enabled entry of the available
list carries it. -/
def preferredUsable (st : GatewayState) (config : ServerConfig) (p : Nat) : Bool :=
  p != 0 && !isPortOccupied st config p &&
    (getAvailablePorts config).any (fun e => e.port == p && e.enabled)

/-- Port selection of `POST /api/ports/allocate`: the preferred port when
usable, else the head of the available list filtered to unoccupied enabled
entries; `none` models the `没有可用的端口` (no port available) failure. -/
def allocatePort (st : GatewayState) (config : ServerConfig) (preferredPort : Option Nat) :
    Option Nat :=
  let preferredChoice : Option Nat :=
    match preferredPort with
    | some p => if preferredUsable st config p then some p else none
    | none => none
  match preferredChoice with
  | some p => some p
  | none =>
      (((getAvailablePorts config).filter
          (fun e => e.enabled && !isPortOccupied st config e.port)).head?).map (·.port)

/-- Body of `GET /api/ports/available`: the route returns
`getAvailablePorts(config)` unchanged. -/
def availablePortsResponse (config : ServerConfig) : List AvailablePortEntry :=
  getAvailablePorts config

/-! ## Listener lifecycle (`createPortMapping`) -/

/-- Protocol field of an allocation request. -/
inductive Protocol
  | tcp
  | udp
  | both
deriving DecidableEq, Repr

/-- Encoding of a protocol for storage in `portProtocols`. -/
def Protocol.code : Protocol → Nat
  | .tcp => 0
  | .udp => 1
  | .both => 2

/-- Whether the request asks for a TCP listener
(`protocol === 'tcp' || protocol === 'both'`). -/
def Protocol.wantsTcp : Protocol → Bool
  | .tcp => true
  | .both => true
  | .udp => false

/-- Whether the request asks for a UDP listener
(`protocol === 'udp' || protocol === 'both'`). -/
def Protocol.wantsUdp : Protocol → Bool
  | .udp => true
  | .both => true
  | .tcp => false

/-- Mirrors `createPortMapping(localPort, publicPort, protocol)`.  The two
booleans say whether the TCP and the UDP bind succeed (the handlers set
`tcpSuccess` or `udpSuccess` to false on a bind error; a protocol that does
not request a listener leaves its flag true).  A successfully bound listener
is entered into its table by the `listening` handler.  The call reports
success when `tcpSuccess || udpSuccess`, and only then records the mapping
and initializes the waiting queue and idle pool. -/
def createPortMapping (st : GatewayState) (localPort publicPort : Nat) (protocol : Protocol)
    (tcpBindOk udpBindOk : Bool) : Bool × GatewayState :=
  if st.activeServers.contains publicPort || st.activeUdpServers.contains publicPort then
    (false, st)
  else
    let st1 := { st with portProtocols := (publicPort, protocol.code) :: st.portProtocols }
    let tcpSuccess := !(protocol.wantsTcp && !tcpBindOk)
    let udpSuccess := !(protocol.wantsUdp && !udpBindOk)
    let st2 :=
      if protocol.wantsTcp && tcpBindOk then
        { st1 with activeServers := publicPort :: st1.activeServers }
      else st1
    let st3 :=
      if protocol.wantsUdp && udpBindOk then
        { st2 with activeUdpServers := publicPort :: st2.activeUdpServers }
      else st2
    if tcpSuccess || udpSuccess then
      (true,
        { st3 with
          portMappings := (localPort, publicPort) :: st3.portMappings,
          waitingQueuePorts :=
            if st3.waitingQueuePorts.contains publicPort then st3.waitingQueuePorts
            else publicPort :: st3.waitingQueuePorts,
          idlePoolPorts :=
            if st3.idlePoolPorts.contains publicPort then st3.idlePoolPorts
            else publicPort :: st3.idlePoolPorts })
    else
      (false, st3)

/-! ## TCP pairing (`tryMatchConnections`) -/

/-- One queued endpoint: an external pending connection or an Agent-side
idle socket, with its `destroyed` flag. -/
structure Endpoint where
  id : Nat
  destroyed : Bool
deriving DecidableEq, Repr

/-- Observable actions the pairing loop could take on endpoints: pairing
two of them (`establishConnection`), or delivering an error or close to
one.  The loop's discard path performs no action on the surviving
endpoint. -/
inductive MatchAction
  | pair (ext loc : Endpoint)
  | errorTo (e : Endpoint)
deriving DecidableEq, Repr

/-- Mirrors the `while` loop of `tryMatchConnections`: both queues are
shifted together; a destroyed endpoint on either side makes the iteration
`continue` (both shifted elements are gone); otherwise the two are paired.
Returns the actions taken, the remaining waiting queue and the remaining
idle pool. -/
def tryMatchConnections : List Endpoint → List Endpoint →
    List MatchAction × List Endpoint × List Endpoint
  | [], socks => ([], [], socks)
  | ext :: q, [] => ([], ext :: q, [])
  | ext :: q, loc :: socks =>
    if ext.destroyed then tryMatchConnections q socks
    else if loc.destroyed then tryMatchConnections q socks
    else
      let r := tryMatchConnections q socks
      (.pair ext loc :: r.1, r.2)

/-! ## Data-plane header handling (`localProxyServer` connection handler) -/

/-- State the connection handler keeps per Agent session: whether the
4-byte header chunk has been consumed, which port it declared, whether the
socket was destroyed, whether it joined the idle pool, and every byte the
Gateway wrote back on it. -/
structure SessionState where
  headerReceived : Bool
  targetPort : Option Nat
  destroyed : Bool
  joinedPool : Bool
  written : List Nat
deriving DecidableEq, Repr

/-- Session state right after `localProxyServer` accepts the connection. -/
def initialSessionState : SessionState := ⟨false, none, false, false, []⟩

/-- One `data` event of the handler: nothing happens on a destroyed socket;
before the header, a chunk of at least 4 bytes has its first four bytes read
as the big-endian target port, which joins the pool when `activeServers` has
a listener for it and destroys the session otherwise; a shorter chunk before
the header, and every chunk after it, is ignored. -/
def sessionDataStep (activeServers : List Nat) (st : SessionState) (chunk : List Nat) :
    SessionState :=
  if st.destroyed then st
  else if !st.headerReceived && decide (4 ≤ chunk.length) then
    let port := readUInt32BE chunk
    let st' := { st with headerReceived := true, targetPort := some port }
    if activeServers.contains port then { st' with joinedPool := true }
    else { st' with destroyed := true }
  else st

/-- Session state after a sequence of data chunks. -/
def runSessionData (activeServers : List Nat) (chunks : List (List Nat)) : SessionState :=
  chunks.foldl (sessionDataStep activeServers) initialSessionState

/-- Port the handler actually parses: the big-endian value of the first four
bytes of the first chunk of length at least 4. -/
def firstHeaderPort (chunks : List (List Nat)) : Option Nat :=
  (chunks.find? (fun c => decide (4 ≤ c.length))).map readUInt32BE

/-! ## Header timeout (the 10-second timer of the connection handler) -/

/-- Events a data-plane session sees, in wall-clock order: a data chunk, a
close or error of the socket (which also clears the timer), and the firing
of the 10-second header timer. -/
inductive SessionEvent
  | dataChunk (bytes : List Nat)
  | closeEvent
  | timerFire
deriving DecidableEq, Repr

/-- State of the header-timeout mechanism. -/
structure TimerState where
  headerReceived : Bool
  closed : Bool
  timerCleared : Bool
  destroyedByTimer : Bool
deriving DecidableEq, Repr

/-- Timer state when the connection is accepted. -/
def initialTimerState : TimerState := ⟨false, false, false, false⟩

/-- One event of the timeline: a chunk of at least 4 bytes received while
the socket is open marks the header received; a close clears the timer; the
timer, when it fires uncleared with no header received, destroys the
connection. -/
def timerStep (st : TimerState) (e : SessionEvent) : TimerState :=
  match e with
  | .dataChunk bs =>
      if st.closed then st
      else if !st.headerReceived && decide (4 ≤ bs.length) then
        { st with headerReceived := true }
      else st
  | .closeEvent => { st with closed := true, timerCleared := true }
  | .timerFire =>
      if !st.timerCleared && !st.headerReceived then
        { st with destroyedByTimer := true, closed := true }
      else st

/-- Timer state after a timeline of events. -/
def runTimerEvents (events : List SessionEvent) : TimerState :=
  events.foldl timerStep initialTimerState

/-! ## UDP dispatch over the idle pool (`handleUdpMessage`) -/

/-- Outcome of dispatching one incoming datagram. -/
inductive UdpDispatch
  | dropped
  | forwarded (s : Endpoint)
deriving DecidableEq, Repr

/-- Mirrors the selection loop of `handleUdpMessage`: an empty pool drops
the datagram with a warning (it is never queued); otherwise the first socket
is shifted out of the pool, a destroyed one triggers a recursive retry on
the remainder, and a live one carries the envelope while the pool stays
without it. -/
def handleUdpMessage : List Endpoint → UdpDispatch × List Endpoint
  | [] => (.dropped, [])
  | s :: rest =>
    if s.destroyed then handleUdpMessage rest
    else (.forwarded s, rest)

/-- Number of calls of `handleUdpMessage` (the initial call plus one per
recursive retry) on a given pool. -/
def handleUdpMessageCalls : List Endpoint → Nat
  | [] => 1
  | s :: rest => if s.destroyed then 1 + handleUdpMessageCalls rest else 1

/-- Return of a socket to the idle pool, as the response handler and the
30-second timeout do with `currentSockets.push(localSocket)`. -/
def returnSocketToPool (pool : List Endpoint) (s : Endpoint) : List Endpoint :=
  pool ++ [s]

/-! ## Concrete states and configurations used by the counterexamples -/

/-- Gateway state with no listener, no mapping and no initialized pool. -/
def emptyGatewayState : GatewayState := ⟨[], [], [], [], [], []⟩

/-- Configuration whose enumeration lists the range 300–301 before the
specific port 100. -/
def c1Config : ServerConfig := ⟨3000, 9000, [⟨300, 301, true⟩], [⟨100, true⟩]⟩

/-- Configuration whose enabled specs cover the bound port 301 and the
Gateway's own web port 3000. -/
def c8Config : ServerConfig := ⟨3000, 9000, [⟨300, 301, true⟩], [⟨3000, true⟩]⟩

/-- Gateway state in which port 301 already has a TCP listener. -/
def c8State : GatewayState := ⟨[301], [], [], [], [], []⟩

/-! ## C10: termination of the UDP destroyed-socket retry -/

/-- C10: the UDP dispatch retry always terminates.  On a pool of k sockets
the handler makes at most k+1 calls; if every socket is destroyed the
datagram is dropped with the pool emptied; and a forwarded result selects a
live socket, with the call count and the surviving pool accounting for
every element of the original pool (each retry permanently removed one
socket). -/
theorem c10_udpRetry_terminates (pool : List Endpoint) :
    handleUdpMessageCalls pool ≤ pool.length + 1
    ∧ ((∀ s ∈ pool, s.destroyed = true) → handleUdpMessage pool = (.dropped, []))
    ∧ (∀ s rest, handleUdpMessage pool = (.forwarded s, rest) →
        s.destroyed = false ∧ rest.length + handleUdpMessageCalls pool = pool.length) := by
  induction pool with
  | nil =>
      refine ⟨by simp [handleUdpMessageCalls], fun _ => rfl, fun s rest h => ?_⟩
      simp [handleUdpMessage] at h
  | cons t ts ih =>
      by_cases ht : t.destroyed
      · refine ⟨?_, ?_, ?_⟩
        · simp only [handleUdpMessageCalls, ht, if_pos, List.length_cons]
          omega
        · intro hall
          simp only [handleUdpMessage, ht, if_pos]
          exact ih.2.1 (fun s hs => hall s (List.mem_cons_of_mem t hs))
        · intro s rest h
          simp only [handleUdpMessage, ht, if_pos] at h
          obtain ⟨h1, h2⟩ := ih.2.2 s rest h
          refine ⟨h1, ?_⟩
          simp only [handleUdpMessageCalls, ht, if_pos, List.length_cons]
          omega
      · refine ⟨?_, ?_, ?_⟩
        · simp [handleUdpMessageCalls, ht]
        · intro hall
          exact absurd (hall t (List.mem_cons_self t ts)) ht
        · intro s rest h
          simp only [handleUdpMessage, ht, if_neg, Bool.false_eq_true,
            not_false_eq_true] at h
          obtain ⟨hs, hrest⟩ := Prod.mk.injEq .. ▸ h
          cases h
          refine ⟨by simpa using ht, ?_⟩
          simp [handleUdpMessageCalls, ht]

/-! ## C5: UDP dispatch and the idle pool -/

/-- C5 counterexample: a single live idle socket carries the datagram, yet
the resulting idle pool no longer holds it — the selected Session does not
remain in the pool. -/
theorem c5_udpSession_consumed_cx :
    handleUdpMessage [⟨7, false⟩] = (.forwarded ⟨7, false⟩, [])
    ∧ (⟨7, false⟩ : Endpoint) ∉ (handleUdpMessage [⟨7, false⟩]).2 := by
  refine ⟨rfl, by decide⟩

/-- C5 (amended): a datagram arriving on an empty pool is dropped (nothing
is queued); a live socket after a run of destroyed ones is selected and the
pool is left without it for the duration of the exchange; the response
handler and the 30-second timeout later push it back. -/
theorem c5_udpDispatch_amended (pre suf : List Endpoint) (s : Endpoint)
    (hpre : ∀ t ∈ pre, t.destroyed = true) (hs : s.destroyed = false) :
    handleUdpMessage [] = (.dropped, [])
    ∧ handleUdpMessage (pre ++ s :: suf) = (.forwarded s, suf)
    ∧ s ∈ returnSocketToPool suf s := by
  refine ⟨rfl, ?_, by simp [returnSocketToPool]⟩
  induction pre with
  | nil => simp [handleUdpMessage, hs]
  | cons t ts ih =>
      have ht : t.destroyed = true := hpre t (List.mem_cons_self t ts)
      simp only [List.cons_append, handleUdpMessage, ht, if_pos]
      exact ih (fun u hu => hpre u (List.mem_cons_of_mem t hu))

/-- C5 witness: the amended statement evaluated on a pool holding one
destroyed socket ahead of one live socket. -/
theorem c5_udpDispatch_amended_witness :
    handleUdpMessage ([⟨1, true⟩] ++ ⟨2, false⟩ :: []) = (.forwarded ⟨2, false⟩, []) :=
  (c5_udpDispatch_amended [⟨1, true⟩] [] ⟨2, false⟩ (by decide) (by decide)).2.1

/-! ## C6: the Agent's response envelope -/

/-- C6 counterexample: the Agent wraps the user payload `[9]` in the
all-zero IP/port envelope, the very shape the claim reserves for
administrative signalling. -/
theorem c6_zeroEnvelope_cx :
    wrapUdpResponse [9] = [0, 0, 0, 0, 0, 0, 0, 1, 9]
    ∧ isUdpResponseHeader (wrapUdpResponse [9]) = true := by decide

/-- C6 (amended): every UDP response payload the Agent sends back travels
in the all-zero IP/port envelope with only the payload length at bytes 6–7;
the original client address is never echoed, and the Gateway-side decoder
never accepts such an envelope as an external datagram. -/
theorem c6_agentResponse_envelope (msg : List Nat) :
    wrapUdpResponse msg = [0, 0, 0, 0, 0, 0, msg.length / 256, msg.length % 256] ++ msg
    ∧ isUdpResponseHeader (wrapUdpResponse msg) = true
    ∧ decodeUdpDatagram (wrapUdpResponse msg) = none := by
  refine ⟨rfl, ?_, ?_⟩
  · simp [isUdpResponseHeader, wrapUdpResponse, be16]
  · simp [decodeUdpDatagram, wrapUdpResponse, be16]

/-! ## C1: allocation order -/

/-- C1 counterexample: with no preferred port, the available set holds the
unoccupied port 100, yet the allocator returns 300 because the range
expansion is enumerated before the specific ports — not the numerically
smallest available port. -/
theorem c1_allocate_not_smallest_cx :
    allocatePort emptyGatewayState c1Config none = some 300
    ∧ (∃ e ∈ getAvailablePorts c1Config,
        e.port = 100 ∧ isPortOccupied emptyGatewayState c1Config 100 = false)
    ∧ 100 < 300 := by decide

/-- C1 (amended): a non-zero preferred port that is unoccupied and covered
by an enabled entry of the availability enumeration is returned exactly;
otherwise the allocator returns the first enumerated enabled unoccupied
entry (enabled ranges in configuration order, each ascending, then enabled
specific ports), and it fails with the no-port-available error exactly when
that filtered enumeration is empty. -/
theorem c1_allocate_selection (st : GatewayState) (config : ServerConfig)
    (pref : Option Nat) :
    (∀ p, pref = some p → preferredUsable st config p = true →
      allocatePort st config pref = some p)
    ∧ ((∀ p, pref = some p → preferredUsable st config p = false) →
      allocatePort st config pref =
        (((getAvailablePorts config).filter
            (fun e => e.enabled && !isPortOccupied st config e.port)).head?).map (·.port))
    ∧ (allocatePort st config pref = none ↔
      ((getAvailablePorts config).filter
          (fun e => e.enabled && !isPortOccupied st config e.port)) = []) := by
  cases pref with
  | none =>
      refine ⟨by intro p hp; exact absurd hp (by simp), fun _ => rfl, ?_⟩
      simp only [allocatePort, Option.map_eq_none', List.head?_eq_none_iff]
  | some p =>
      by_cases hU : preferredUsable st config p = true
      · refine ⟨?_, ?_, ?_⟩
        · intro p' hp' _
          cases hp'
          simp [allocatePort, hU]
        · intro hnone
          exact absurd hU (by simp [hnone p rfl])
        · constructor
          · intro hnone
            exact absurd hnone (by simp [allocatePort, hU])
          · intro hfil
            exfalso
            simp only [preferredUsable, Bool.and_eq_true, List.any_eq_true,
              bne_iff_ne, ne_eq, Bool.not_eq_true', beq_iff_eq] at hU
            obtain ⟨⟨hp0, hocc⟩, e, he, hpe, hen⟩ := hU
            have hmem : e ∈ (getAvailablePorts config).filter
                (fun e => e.enabled && !isPortOccupied st config e.port) := by
              refine List.mem_filter.mpr ⟨he, ?_⟩
              simp [hen, hpe, hocc]
            rw [hfil] at hmem
            exact absurd hmem (List.not_mem_nil e)
      · have hU' : preferredUsable st config p = false := by
          simpa using hU
        refine ⟨?_, fun _ => ?_, ?_⟩
        · intro p' hp' hu
          cases hp'
          exact absurd hu hU
        · simp [allocatePort, hU']
        · simp only [allocatePort, hU', if_neg, Bool.false_eq_true, not_false_eq_true,
            Option.map_eq_none', List.head?_eq_none_iff]

/-! ## C8: the available-ports listing -/

/-- C8 counterexample: the listing of `GET /api/ports/available` contains
the bound port 301 and the Gateway's own web port 3000, both of which
`isPortOccupied` rejects — occupied ports are not subtracted. -/
theorem c8_available_listing_cx :
    (∃ e ∈ availablePortsResponse c8Config, e.port = 3000)
    ∧ (∃ e ∈ availablePortsResponse c8Config, e.port = 301)
    ∧ isPortOccupied c8State c8Config 3000 = true
    ∧ isPortOccupied c8State c8Config 301 = true := by decide

/-- C8 (amended): a port appears in the `GET /api/ports/available` listing
precisely when an enabled PortSpec covers it — an enabled range whose bounds
enclose it or an enabled specific-port entry carrying it; ports already
bound in the mapping table and the process-reserved ports are not
subtracted. -/
theorem c8_available_listing (config : ServerConfig) (q : Nat) :
    (∃ e ∈ availablePortsResponse config, e.port = q) ↔
      ((∃ r ∈ config.portRanges, r.enabled = true ∧ r.startPort ≤ q ∧ q ≤ r.endPort)
        ∨ (∃ sp ∈ config.specificPorts, sp.enabled = true ∧ sp.port = q)) := by
  simp only [availablePortsResponse, getAvailablePorts, List.mem_append,
    List.mem_flatMap, List.mem_filter, List.mem_map, rangePortsList, List.mem_range]
  constructor
  · rintro ⟨e, hor, hq⟩
    rcases hor with ⟨r, ⟨hr, hren⟩, i, hi, rfl⟩ | ⟨sp, ⟨hsp, hspen⟩, rfl⟩
    · exact Or.inl ⟨r, hr, hren, by simp at hq ⊢; omega⟩
    · exact Or.inr ⟨sp, hsp, hspen, hq⟩
  · rintro (⟨r, hr, hren, hlo, hhi⟩ | ⟨sp, hsp, hspen, rfl⟩)
    · exact ⟨⟨q, true⟩, Or.inl ⟨r, ⟨hr, hren⟩, q - r.startPort, by omega,
        by simp; omega⟩, rfl⟩
    · exact ⟨⟨sp.port, true⟩, Or.inr ⟨sp, ⟨hsp, hspen⟩, rfl⟩, rfl⟩

/-! ## C2: listener lifecycle on bind failure -/

/-- Membership in a list after the initialize-if-absent step the mapping
code uses for the waiting queue and the idle pool. -/
theorem mem_if_contains_self (pp : Nat) (l : List Nat) :
    pp ∈ (if l.contains pp = true then l else pp :: l) := by
  by_cases h : pp ∈ l <;> simp [h]

/-- C2 counterexample: for a `both` allocation on a free port whose TCP
listener fails to bind while the UDP one succeeds, the call still reports
success and leaves the UDP listener, the PortBinding, the waiting queue and
the idle pool in place — the failed listener does not fail the allocation
and nothing is rolled back. -/
theorem c2_partial_bind_cx :
    (createPortMapping emptyGatewayState 8080 25565 .both false true).1 = true
    ∧ 25565 ∈ (createPortMapping emptyGatewayState 8080 25565 .both false true).2.activeUdpServers
    ∧ (8080, 25565) ∈ (createPortMapping emptyGatewayState 8080 25565 .both false true).2.portMappings
    ∧ 25565 ∈ (createPortMapping emptyGatewayState 8080 25565 .both false true).2.waitingQueuePorts
    ∧ 25565 ∈ (createPortMapping emptyGatewayState 8080 25565 .both false true).2.idlePoolPorts := by
  decide

/-- C2 (amended): on a port with no existing listener, `createPortMapping`
reports failure exactly when the protocol is `both` and both listeners fail
to bind; on that failure nothing is rolled back or released beyond never
having been created — the state keeps only the new protocol-table entry;
and whenever at least one listener binds (always, for single-protocol
requests, even if their only listener failed) the call succeeds, records the
PortBinding and initializes the waiting queue and idle pool, keeping every
successfully bound listener registered. -/
theorem c2_createPortMapping_amended (st : GatewayState) (lp pp : Nat)
    (proto : Protocol) (tcpOk udpOk : Bool)
    (h1 : st.activeServers.contains pp = false)
    (h2 : st.activeUdpServers.contains pp = false) :
    ((createPortMapping st lp pp proto tcpOk udpOk).1 = false ↔
      proto = .both ∧ tcpOk = false ∧ udpOk = false)
    ∧ ((createPortMapping st lp pp proto tcpOk udpOk).1 = false →
      (createPortMapping st lp pp proto tcpOk udpOk).2 =
        { st with portProtocols := (pp, proto.code) :: st.portProtocols })
    ∧ ((createPortMapping st lp pp proto tcpOk udpOk).1 = true →
      (lp, pp) ∈ (createPortMapping st lp pp proto tcpOk udpOk).2.portMappings
      ∧ pp ∈ (createPortMapping st lp pp proto tcpOk udpOk).2.waitingQueuePorts
      ∧ pp ∈ (createPortMapping st lp pp proto tcpOk udpOk).2.idlePoolPorts
      ∧ (proto.wantsTcp = true → tcpOk = true →
          pp ∈ (createPortMapping st lp pp proto tcpOk udpOk).2.activeServers)
      ∧ (proto.wantsUdp = true → udpOk = true →
          pp ∈ (createPortMapping st lp pp proto tcpOk udpOk).2.activeUdpServers)) := by
  cases proto <;> cases tcpOk <;> cases udpOk <;>
    simp only [createPortMapping, Protocol.wantsTcp, Protocol.wantsUdp, Protocol.code,
      h1, h2, Bool.or_self, Bool.false_or, Bool.or_false, Bool.and_self, Bool.and_true,
      Bool.and_false, Bool.true_and, Bool.false_and, Bool.not_true, Bool.not_false,
      Bool.true_or, Bool.or_true, if_true, if_false, Bool.false_eq_true, if_neg,
      if_pos, not_false_eq_true] <;>
    refine ⟨?_, ?_, ?_⟩ <;>
    first
      | (simp; done)
      | (intro hsucc;
         first
           | exact hsucc.elim
           | exact ⟨by simp, mem_if_contains_self pp _, mem_if_contains_self pp _,
               by simp, by simp⟩)

/-- C2 witness: the amended characterization evaluated on the empty state
for a `both` request whose two binds fail — the call reports failure and the
state keeps exactly the protocol-table entry. -/
theorem c2_createPortMapping_amended_witness :
    (createPortMapping emptyGatewayState 8080 25565 .both false false).1 = false
    ∧ (createPortMapping emptyGatewayState 8080 25565 .both false false).2 =
      { emptyGatewayState with portProtocols := [(25565, Protocol.both.code)] } := by
  have h := c2_createPortMapping_amended emptyGatewayState 8080 25565 .both false false
    (by decide) (by decide)
  have hfail : (createPortMapping emptyGatewayState 8080 25565 .both false false).1 = false :=
    h.1.mpr ⟨rfl, rfl, rfl⟩
  exact ⟨hfail, h.2.1 hfail⟩

/-! ## C3: pairing with a destroyed endpoint -/

/-- C3 counterexample: one open pending connection meets one destroyed idle
socket; the iteration consumes both, so the still-open endpoint is no
longer in the waiting queue and is never paired with a later
counterpart. -/
theorem c3_pairing_loses_open_cx :
    tryMatchConnections [⟨1, false⟩] [⟨2, true⟩] = ([], [], [])
    ∧ (⟨1, false⟩ : Endpoint) ∉ (tryMatchConnections [⟨1, false⟩] [⟨2, true⟩]).2.1 := by
  decide

/-- Every action the pairing loop takes is the pairing of two live
endpoints; in particular it never delivers an error to anything. -/
theorem tryMatch_actions_live (q socks : List Endpoint) :
    ∀ a ∈ (tryMatchConnections q socks).1,
      ∃ e l, a = .pair e l ∧ e.destroyed = false ∧ l.destroyed = false := by
  induction q generalizing socks with
  | nil =>
      intro a ha
      simp [tryMatchConnections] at ha
  | cons ext q ih =>
      intro a ha
      cases socks with
      | nil => simp [tryMatchConnections] at ha
      | cons loc socks =>
          by_cases hx : ext.destroyed
          · simp only [tryMatchConnections, hx, if_pos] at ha
            exact ih socks a ha
          · by_cases hl : loc.destroyed
            · simp only [tryMatchConnections, hx, hl, if_pos, if_neg,
                Bool.false_eq_true, not_false_eq_true] at ha
              exact ih socks a ha
            · simp only [tryMatchConnections, hx, hl, if_neg, Bool.false_eq_true,
                not_false_eq_true, List.mem_cons] at ha
              rcases ha with rfl | ha
              · exact ⟨ext, loc, rfl, by simpa using hx, by simpa using hl⟩
              · exact ih socks a ha

/-- C3 (amended): when the dequeued pending connection or the dequeued idle
socket is destroyed, the iteration silently discards <em>both</em>: the
loop continues as if neither had been queued, so the still-open endpoint is
not returned to its queue; no error is ever delivered to it (the loop
performs no action other than pairing live endpoints). -/
theorem c3_pairing_amended (ext loc : Endpoint) (q socks : List Endpoint)
    (h : ext.destroyed = true ∨ loc.destroyed = true) :
    tryMatchConnections (ext :: q) (loc :: socks) = tryMatchConnections q socks
    ∧ ∀ e, MatchAction.errorTo e ∉ (tryMatchConnections (ext :: q) (loc :: socks)).1 := by
  have heq : tryMatchConnections (ext :: q) (loc :: socks) = tryMatchConnections q socks := by
    by_cases hx : ext.destroyed
    · simp [tryMatchConnections, hx]
    · rcases h with h | h
      · exact absurd h hx
      · simp [tryMatchConnections, hx, h]
  refine ⟨heq, fun e hmem => ?_⟩
  obtain ⟨e', l', habs, _, _⟩ := tryMatch_actions_live (ext :: q) (loc :: socks) _ hmem
  simp at habs

/-- C3 witness: the amended statement at the concrete one-against-one
input with the idle socket destroyed. -/
theorem c3_pairing_amended_witness :
    tryMatchConnections [⟨1, false⟩] [⟨2, true⟩] = tryMatchConnections [] [] :=
  (c3_pairing_amended ⟨1, false⟩ ⟨2, true⟩ [] [] (Or.inr rfl)).1

/-! ## C4: the data-plane port-selection header -/

/-- C4 counterexample: the first four received bytes are `0,0,0,0` (the
header split across a 2-byte chunk and a later chunk), a port with no
binding, so the claim requires the session closed; the handler instead
parses port 25565 from the second chunk and files the session into the
pool, leaving it open. -/
theorem c4_header_not_first_bytes_cx :
    readUInt32BE (List.take 4 ([0, 0] ++ [0, 0, 99, 221])) = 0
    ∧ List.contains [25565] 0 = false
    ∧ (runSessionData [25565] [[0, 0], [0, 0, 99, 221]]).destroyed = false
    ∧ (runSessionData [25565] [[0, 0], [0, 0, 99, 221]]).targetPort = some 25565
    ∧ (runSessionData [25565] [[0, 0], [0, 0, 99, 221]]).joinedPool = true := by
  decide

/-- Data events on a session already destroyed leave its state unchanged. -/
theorem runSessionData_of_destroyed (servers : List Nat) (chunks : List (List Nat))
    (st : SessionState) (h : st.destroyed = true) :
    chunks.foldl (sessionDataStep servers) st = st := by
  induction chunks with
  | nil => rfl
  | cons c cs ih => simpa [sessionDataStep, h] using ih

/-- C4 (amended): the Gateway reads the declared public port from the first
four bytes of the first received chunk of length at least 4 (shorter chunks
arriving before it are skipped and their bytes discarded); when that port
has no active TCP listener the session is destroyed immediately and the
Gateway writes nothing back to the Agent. -/
theorem c4_header_parse_amended (servers : List Nat) (chunks : List (List Nat)) (port : Nat)
    (hp : firstHeaderPort chunks = some port)
    (hb : servers.contains port = false) :
    (runSessionData servers chunks).destroyed = true
    ∧ (runSessionData servers chunks).targetPort = some port
    ∧ (runSessionData servers chunks).written = [] := by
  induction chunks with
  | nil => simp [firstHeaderPort] at hp
  | cons c cs ih =>
      by_cases hc : 4 ≤ c.length
      · have hport : port = readUInt32BE c := by
          simp [firstHeaderPort, List.find?_cons_of_pos, hc] at hp
          omega
        subst hport
        have hb' : readUInt32BE c ∉ servers := by simpa using hb
        have hstep : sessionDataStep servers initialSessionState c =
            { initialSessionState with
              headerReceived := true, targetPort := some (readUInt32BE c),
              destroyed := true } := by
          simp [sessionDataStep, initialSessionState, hc, hb']
        have : runSessionData servers (c :: cs) =
            { initialSessionState with
              headerReceived := true, targetPort := some (readUInt32BE c),
              destroyed := true } := by
          simp only [runSessionData, List.foldl_cons, hstep]
          exact runSessionData_of_destroyed servers cs _ rfl
        simp [this, initialSessionState]
      · have hfind : firstHeaderPort cs = some port := by
          simpa [firstHeaderPort, List.find?_cons_of_neg, hc] using hp
        have hstep : sessionDataStep servers initialSessionState c =
            initialSessionState := by
          simp [sessionDataStep, initialSessionState, hc]
        have hrun : runSessionData servers (c :: cs) = runSessionData servers cs := by
          simp only [runSessionData, List.foldl_cons, hstep]
        rw [hrun]
        exact ih hfind

/-- C4 witness: the amended statement evaluated on a single 4-byte header
declaring port 7 while no listener exists. -/
theorem c4_header_parse_amended_witness :
    (runSessionData [] [[0, 0, 0, 7]]).destroyed = true :=
  (c4_header_parse_amended [] [[0, 0, 0, 7]] 7 (by decide) (by decide)).1

/-! ## C9: the 10-second header timeout -/

/-- Only the timer event can set `destroyedByTimer`: a timeline without it
leaves the flag as it was. -/
theorem runTimer_destroyedByTimer_of_no_fire (events : List SessionEvent)
    (st : TimerState) (h : SessionEvent.timerFire ∉ events) :
    (events.foldl timerStep st).destroyedByTimer = st.destroyedByTimer := by
  induction events generalizing st with
  | nil => rfl
  | cons e es ih =>
      have he : e ≠ SessionEvent.timerFire := fun hf => h (hf ▸ List.mem_cons_self e es)
      have hes : SessionEvent.timerFire ∉ es := fun hf => h (List.mem_cons_of_mem e hf)
      rw [List.foldl_cons, ih _ hes]
      cases e with
      | dataChunk bs =>
          simp only [timerStep]
          split <;> try rfl
          split <;> rfl
      | closeEvent => rfl
      | timerFire => exact absurd rfl he

/-- Once the timer destroyed the connection, no later event unsets the
flag. -/
theorem runTimer_destroyedByTimer_mono (events : List SessionEvent) (st : TimerState)
    (h : st.destroyedByTimer = true) :
    (events.foldl timerStep st).destroyedByTimer = true := by
  induction events generalizing st with
  | nil => exact h
  | cons e es ih =>
      rw [List.foldl_cons]
      refine ih _ ?_
      cases e with
      | dataChunk bs =>
          simp only [timerStep]
          split
          · exact h
          · split <;> exact h
      | closeEvent => exact h
      | timerFire =>
          simp only [timerStep]
          split
          · rfl
          · exact h

/-- Before the timer has fired, the cleared flag tracks the closed flag:
only a close or error event sets either, and it sets both. -/
theorem runTimer_cleared_eq_closed (events : List SessionEvent) (st : TimerState)
    (h : SessionEvent.timerFire ∉ events) (hcc : st.timerCleared = st.closed) :
    (events.foldl timerStep st).timerCleared = (events.foldl timerStep st).closed := by
  induction events generalizing st with
  | nil => exact hcc
  | cons e es ih =>
      have he : e ≠ SessionEvent.timerFire := fun hf => h (hf ▸ List.mem_cons_self e es)
      have hes : SessionEvent.timerFire ∉ es := fun hf => h (List.mem_cons_of_mem e hf)
      rw [List.foldl_cons]
      refine ih _ hes ?_
      cases e with
      | dataChunk bs =>
          simp only [timerStep]
          split
          · exact hcc
          · split <;> exact hcc
      | closeEvent => rfl
      | timerFire => exact absurd rfl he

/-- C9: a data-plane connection whose first chunk of at least 4 bytes
arrives before the 10-second timer fires is never destroyed by that timer;
one that is still open when the timer fires without such a chunk having
arrived is destroyed by it.  `pre` are the events before the timer fires,
`post` those after; the timer fires once. -/
theorem c9_header_timeout (pre post : List SessionEvent)
    (hpre : SessionEvent.timerFire ∉ pre) (hpost : SessionEvent.timerFire ∉ post) :
    ((runTimerEvents pre).headerReceived = true →
      (runTimerEvents (pre ++ SessionEvent.timerFire :: post)).destroyedByTimer = false)
    ∧ ((runTimerEvents pre).headerReceived = false → (runTimerEvents pre).closed = false →
      (runTimerEvents (pre ++ SessionEvent.timerFire :: post)).destroyedByTimer = true) := by
  have hsplit : runTimerEvents (pre ++ SessionEvent.timerFire :: post) =
      post.foldl timerStep (timerStep (runTimerEvents pre) .timerFire) := by
    simp [runTimerEvents, List.foldl_append]
  constructor
  · intro hhdr
    have hstep : timerStep (runTimerEvents pre) .timerFire = runTimerEvents pre := by
      simp [timerStep, hhdr]
    rw [hsplit, hstep, runTimer_destroyedByTimer_of_no_fire post _ hpost]
    have : (runTimerEvents pre).destroyedByTimer = initialTimerState.destroyedByTimer :=
      runTimer_destroyedByTimer_of_no_fire pre _ hpre
    simpa [initialTimerState] using this
  · intro hhdr hopen
    have hcl : (runTimerEvents pre).timerCleared = false :=
      (runTimer_cleared_eq_closed pre initialTimerState hpre rfl).trans hopen
    have hstep : (timerStep (runTimerEvents pre) .timerFire).destroyedByTimer = true := by
      simp [timerStep, hhdr, hcl]
    rw [hsplit]
    exact runTimer_destroyedByTimer_mono post _ hstep

/-- C9 witness: a 4-byte chunk arrives before the timer fires; the timer
does not destroy the connection. -/
theorem c9_header_timeout_witness :
    (runTimerEvents ([SessionEvent.dataChunk [0, 0, 99, 221]] ++
      SessionEvent.timerFire :: [])).destroyedByTimer = false :=
  (c9_header_timeout [SessionEvent.dataChunk [0, 0, 99, 221]] []
    (by decide) (by decide)).1 (by decide)

/-! ## C7: the UDP envelope round trip -/

/-- C7 counterexample: a zero-length payload (allowed by the claim, which
quantifies over `0 ≤ N ≤ 65507`) does not survive the round trip — the
Agent-side decoder requires a positive announced length and yields nothing
for the encoded envelope. -/
theorem c7_envelope_roundtrip_cx :
    decodeUdpDatagram (wrapUdpDatagram 1 2 3 4 5 []) = none
    ∧ wrapUdpDatagram 1 2 3 4 5 [] = [1, 2, 3, 4, 0, 5, 0, 0] := by decide

/-- C7 (amended): for every client address and port not both zero and every
payload of length 1 ≤ N ≤ 65507, encoding the envelope on the Gateway and
decoding it on the Agent returns exactly the client address, port and
payload; and every header-conforming byte string — bytes below 256, total
length exactly 8 plus the big-endian length field, a positive length field,
and a header that is not the all-zero response shape — is reproduced
identically by decoding and re-encoding. -/
theorem c7_envelope_roundtrip_amended :
    (∀ ip0 ip1 ip2 ip3 port : Nat, ∀ msg : List Nat,
      port < 65536 →
      (ip0 == 0 && ip1 == 0 && ip2 == 0 && ip3 == 0 && port == 0) = false →
      1 ≤ msg.length → msg.length ≤ 65507 →
      decodeUdpDatagram (wrapUdpDatagram ip0 ip1 ip2 ip3 port msg) =
        some ⟨ip0, ip1, ip2, ip3, port, msg⟩)
    ∧ (∀ data : List Nat,
      data.length = 8 + be16 (data.getD 6 0) (data.getD 7 0) →
      1 ≤ be16 (data.getD 6 0) (data.getD 7 0) →
      (∀ b ∈ data, b < 256) →
      isUdpResponseHeader data = false →
      (decodeUdpDatagram data).map
        (fun d => wrapUdpDatagram d.ip0 d.ip1 d.ip2 d.ip3 d.clientPort d.payload) =
        some data) := by
  constructor
  · intro ip0 ip1 ip2 ip3 port msg hport hnz hlen1 hlen2
    have hp : be16 (port / 256) (port % 256) = port := by
      simp only [be16]
      omega
    have hl : be16 (msg.length / 256) (msg.length % 256) = msg.length := by
      simp only [be16]
      omega
    simp only [wrapUdpDatagram, List.cons_append, List.nil_append, decodeUdpDatagram,
      hp, hl, hnz, Bool.not_false, Bool.true_and, le_refl, List.take_length]
    simp [Nat.lt_of_lt_of_le Nat.zero_lt_one hlen1]
  · intro data hlen hN hbytes hresp
    match data with
    | [] => simp [be16] at hlen
    | [b0] => simp [be16] at hlen
    | [b0, b1] => simp [be16] at hlen
    | [b0, b1, b2] => simp [be16] at hlen
    | [b0, b1, b2, b3] => simp [be16] at hlen
    | [b0, b1, b2, b3, b4] => simp [be16] at hlen
    | [b0, b1, b2, b3, b4, b5] => simp [be16] at hlen
    | [b0, b1, b2, b3, b4, b5, b6] => simp [be16] at hlen; omega
    | b0 :: b1 :: b2 :: b3 :: b4 :: b5 :: b6 :: b7 :: rest =>
      have hb4 : b4 < 256 := hbytes b4 (by simp)
      have hb5 : b5 < 256 := hbytes b5 (by simp)
      have hb6 : b6 < 256 := hbytes b6 (by simp)
      have hb7 : b7 < 256 := hbytes b7 (by simp)
      have hrest : rest.length = b6 * 256 + b7 := by
        simp only [List.length_cons, be16] at hlen
        have : (b0 :: b1 :: b2 :: b3 :: b4 :: b5 :: b6 :: b7 :: rest).getD 6 0 = b6 := rfl
        have : (b0 :: b1 :: b2 :: b3 :: b4 :: b5 :: b6 :: b7 :: rest).getD 7 0 = b7 := rfl
        simp only [List.length_cons, be16, List.getD_cons_succ, List.getD_cons_zero] at hlen
        omega
      have hN' : 0 < b6 * 256 + b7 := by
        simp only [be16, List.getD_cons_succ, List.getD_cons_zero] at hN
        omega
      have hresp' : (b0 == 0 && b1 == 0 && b2 == 0 && b3 == 0 && be16 b4 b5 == 0) = false :=
        hresp
      have hTake : rest.take (be16 b6 b7) = rest := by
        have : be16 b6 b7 = rest.length := by
          simp only [be16]
          omega
        rw [this, List.take_length]
      have e1 : be16 b4 b5 / 256 = b4 := by
        simp only [be16]
        omega
      have e2 : be16 b4 b5 % 256 = b5 := by
        simp only [be16]
        omega
      have hLeLen : be16 b6 b7 ≤ rest.length := by
        simp only [be16]
        omega
      have hPos : 0 < be16 b6 b7 := by
        simp only [be16]
        omega
      simp only [decodeUdpDatagram, hresp', Bool.not_false, Bool.true_and, hLeLen,
        hPos, Bool.and_self, if_true, Option.map_some', hTake,
        wrapUdpDatagram, e1, e2]
      have e3 : rest.length / 256 = b6 := by omega
      have e4 : rest.length % 256 = b7 := by omega
      simp [e1, e2, e3, e4, List.cons_append]

end Relay
